import Mathlib

/-!
Verification development for the SERPAVI scraper (Express + Playwright).

The repository holds three incremental revisions of one HTTP service:
two concatenated in `src/server.mjs` (called V1 and V2 below, in file
order) and one in `src/unnamed/part_000` (called P0 below).  The pure
helpers (currency parsing, plausibility sanitization, text extraction,
hostname check) are embedded directly; the request handler is embedded
as a function of the request body and of the outcome of the browser
work, which is external I/O.  The JavaScript regular expressions are
embedded through a small backtracking matcher with ordered alternation,
greedy and lazy repetition, capture groups and negative lookahead,
mirroring the JS engine on the patterns used here (all carry the /i
flag, which we model by case-folding literals).
-/

namespace Serpavi

/-! ## Character helpers (JS character classes) -/

def isDigitCh (c : Char) : Bool := '0' ≤ c && c ≤ '9'

/-- JS \s for the characters that can occur in the scraped text. -/
def isSpaceCh (c : Char) : Bool :=
  c = ' ' || c = '\t' || c = '\n' || c = '\r'

/-- Case-insensitive character comparison (the /i flag; ASCII folding). -/
def eqCI (a b : Char) : Bool := a.toLower = b.toLower

/-- Characters allowed in the loose numeric group `[\d\.\,]`. -/
def numCls (c : Char) : Bool := isDigitCh c || c = '.' || c = ','

/-! ## A tiny backtracking regex engine -/

/-- Abstract syntax of the regular expressions used by the scraper. -/
inductive RE : Type
  | eps : RE
  | chLit : Char → RE
  | cls : (Char → Bool) → RE
  | seq : RE → RE → RE
  | alt : RE → RE → RE
  | starG : RE → RE
  | grp : Nat → RE → RE
  | lookN : RE → RE

/-- Capture list: group index paired with the captured text
(most recent capture first, as JS overwrites on repetition). -/
def Caps : Type := List (Nat × String)

def capGet (cs : Caps) (i : Nat) : Option String :=
  (cs.find? (fun p => p.1 = i)).map (fun p => p.2)

/-- CPS backtracking matcher.  Ordered alternation tries the left branch
first and the greedy star prefers one more iteration, exactly as the JS
engine does on these patterns.  `fuel` bounds the search; it is chosen
far above the number of steps any of the concrete patterns can take. -/
def mre : Nat → RE → List Char → Caps →
    (List Char → Caps → Option (Caps × List Char)) → Option (Caps × List Char)
  | 0, _, _, _, _ => none
  | Nat.succ fu, r, s, cs, k =>
    match r with
    | .eps => k s cs
    | .chLit c =>
      match s with
      | [] => none
      | c2 :: rest => if eqCI c c2 then k rest cs else none
    | .cls f =>
      match s with
      | [] => none
      | c2 :: rest => if f c2 then k rest cs else none
    | .seq a b => mre fu a s cs (fun s2 cs2 => mre fu b s2 cs2 k)
    | .alt a b =>
      match mre fu a s cs k with
      | some res => some res
      | none => mre fu b s cs k
    | .starG r0 =>
      match mre fu r0 s cs (fun s2 cs2 =>
        if s2.length < s.length then mre fu (.starG r0) s2 cs2 k
        else k s2 cs2) with
      | some res => some res
      | none => k s cs
    | .grp i r0 =>
      mre fu r0 s cs (fun s2 cs2 =>
        k s2 ((i, String.mk (s.take (s.length - s2.length))) :: cs2))
    | .lookN r0 =>
      match mre fu r0 s cs (fun s2 cs2 => some (cs2, s2)) with
      | some _ => none
      | none => k s cs

def engineFuel : Nat := 100000

/-- Try to match `re` at the start of `s`. -/
def execAt (re : RE) (s : List Char) : Option (Caps × List Char) :=
  mre engineFuel re s [] (fun s2 cs => some (cs, s2))

def findFirstAux : Nat → RE → List Char → Option (Caps × List Char)
  | 0, _, _ => none
  | fu + 1, re, s =>
    match execAt re s with
    | some r => some r
    | none =>
      match s with
      | [] => none
      | _ :: rest => findFirstAux fu re rest

/-- Leftmost match of `re` in `s` (JS `String.prototype.match` without /g):
the capture list of the first position where the pattern matches. -/
def findFirstL (re : RE) (s : List Char) : Option Caps :=
  (findFirstAux (s.length + 1) re s).map (fun p => p.1)

def scanAllAux : Nat → RE → List Char → List Caps
  | 0, _, _ => []
  | fu + 1, re, s =>
    match execAt re s with
    | some (cs, rest) => cs :: scanAllAux fu re rest
    | none =>
      match s with
      | [] => []
      | _ :: rest => scanAllAux fu re rest

/-- All non-overlapping leftmost matches (JS `exec` loop with the /g flag;
the patterns scanned this way never match the empty string). -/
def scanAll (re : RE) (s : List Char) : List Caps :=
  scanAllAux (s.length + 1) re s

/-! ## Pattern combinators -/

def rcat (l : List RE) : RE := l.foldr RE.seq RE.eps

/-- Case-insensitive string literal. -/
def rlit (s : String) : RE := rcat (s.data.map RE.chLit)

def ropt (r : RE) : RE := .alt r .eps

def rplus (r : RE) : RE := .seq r (.starG r)

def rdig : RE := .cls isDigitCh
def rsp : RE := .cls isSpaceCh
def rstarSp : RE := .starG rsp
def rplusSp : RE := rplus rsp
def rnonDigit : RE := .cls (fun c => !isDigitCh c)
def rdotAny : RE := .cls (fun c => c ≠ '\n' && c ≠ '\r')

/-- `.{0,n}?` — lazy bounded repetition (prefers fewer characters). -/
def lazyUpTo : Nat → RE → RE
  | 0, _ => .eps
  | n + 1, r => .alt .eps (.seq r (lazyUpTo n r))

/-- `[\d]{2,3}` greedy. -/
def rd23 : RE := .seq rdig (.seq rdig (ropt rdig))

/-- `[\d]{1,3}` greedy. -/
def rd13 : RE := .seq rdig (ropt (.seq rdig (ropt rdig)))

/-- `(?:\.\d{3})*` greedy. -/
def rThousands : RE := .starG (rcat [.chLit '.', rdig, rdig, rdig])

/-- `(?:,\d{1,2})?` greedy. -/
def rDecimals : RE := ropt (.seq (.chLit ',') (.seq rdig (ropt rdig)))

/-- Strict currency token body `[\d]{2,3}(?:\.\d{3})*(?:,\d{1,2})?`
captured as group 1. -/
def rStrict23 : RE := .grp 1 (rcat [rd23, rThousands, rDecimals])

/-- Same with `[\d]{1,3}` (V1 €/m² pattern), captured as group 1. -/
def rStrict13 : RE := .grp 1 (rcat [rd13, rThousands, rDecimals])

/-- Loose numeric group `([\d\.\,]+)` captured as group `i`. -/
def rNumG (i : Nat) : RE := .grp i (rplus (.cls numCls))

/-- `(?:€|euros?)`. -/
def rEur : RE := .alt (.chLit '€') (.seq (rlit "euro") (ropt (.chLit 's')))

/-- `(?:€|€|euros?|eur)` — U+20AC is the same character as €. -/
def rEur4 : RE :=
  .alt (.chLit '€') (.alt (.chLit '€')
    (.alt (.seq (rlit "euro") (ropt (.chLit 's'))) (rlit "eur")))

/-- `[^\d€]*` (also written `[^0-9€]*` / `[^\d€]*` / `[^€\d]*`). -/
def rNotDigEur : RE := .starG (.cls (fun c => !isDigitCh c && c ≠ '€'))

/-- `[^\d]+`. -/
def rNonDigPlus : RE := rplus rnonDigit

/-- `m[²2]` / `m(?:2|²)`. -/
def rMsq : RE := .seq (.chLit 'm') (.cls (fun c => c = '2' || c = '²'))

/-- `\s*[:\-]?\s*`. -/
def rSepColon : RE :=
  rcat [rstarSp, ropt (.cls (fun c => c = ':' || c = '-')), rstarSp]

/-- `(?:a|-|–|—)`. -/
def rRangeSep : RE :=
  .alt (.chLit 'a') (.alt (.chLit '-') (.alt (.chLit '–') (.chLit '—')))

/-! ## Number parsing

`eurToNum(s)` in all three revisions:
```
if (!s) return null;
const v = Number(String(s).replace(/\./g, "").replace(",", "."));
return Number.isFinite(v) ? v : null;
```
The first `replace` removes every dot; the second replaces only the
first comma.  `Number` on the resulting strings (digits, at most one
dot) yields the decimal value; any leftover comma or other character
yields NaN, which the finiteness check turns into null. -/

def stripDots (s : String) : String :=
  String.mk (s.data.filter (fun c => c ≠ '.'))

def replaceFirstCommaL : List Char → List Char
  | [] => []
  | c :: rest => if c = ',' then '.' :: rest else c :: replaceFirstCommaL rest

/-- Digit run: value, number of digits consumed, rest. -/
def takeDigits : List Char → Nat → Nat → (Nat × Nat × List Char)
  | [], acc, n => (acc, n, [])
  | c :: rest, acc, n =>
    if isDigitCh c then takeDigits rest (acc * 10 + (c.toNat - '0'.toNat)) (n + 1)
    else (acc, n, c :: rest)

/-- Exact rational arithmetic helpers.  The library operations `+`, `-`,
`*`, `/` on `ℚ` are deliberately irreducible, so the embedding builds
the same values through `mkRat`, which normalizes and does reduce. -/
def qAdd (x y : ℚ) : ℚ := mkRat (x.num * (y.den : ℤ) + y.num * (x.den : ℤ)) (x.den * y.den)

def qSub (x y : ℚ) : ℚ := mkRat (x.num * (y.den : ℤ) - y.num * (x.den : ℤ)) (x.den * y.den)

/-- `x / n` for a positive natural `n`. -/
def qDivN (x : ℚ) (n : Nat) : ℚ := mkRat x.num (x.den * n)

/-- `x * n` for a natural `n`. -/
def qMulN (x : ℚ) (n : Nat) : ℚ := mkRat (x.num * (n : ℤ)) x.den

/-- JS `Number()` on the strings produced above: JS whitespace around the
token is trimmed, the empty string is 0, and the grammar accepted here is
`digits [ "." digits ]` with at least one digit overall ("12." and ".5"
are valid).  Anything else — in particular a remaining comma — is NaN,
returned as `none`.  (Signs and exponents cannot occur in the inputs the
scraper feeds to this function.) -/
def jsNumber (s : String) : Option ℚ :=
  let t := (s.data.dropWhile isSpaceCh).reverse.dropWhile isSpaceCh |>.reverse
  match t with
  | [] => some 0
  | _ =>
    let (ip, ic, r1) := takeDigits t 0 0
    match r1 with
    | [] => if ic = 0 then none else some (ip : ℚ)
    | '.' :: r2 =>
      let (fp, fc, r3) := takeDigits r2 0 0
      if r3 = [] && ic + fc ≠ 0 then
        some (mkRat ((ip * 10 ^ fc + fp : ℕ) : ℤ) (10 ^ fc))
      else none
    | _ => none

def eurToNum (s : String) : Option ℚ :=
  if s = "" then none
  else jsNumber (String.mk (replaceFirstCommaL (stripDots s).data))

/-! ## Plausibility bounds and sanitization (V1; P0 has the same code) -/

/-- `plausib(n) { return n != null && n >= 100 && n <= 20000; }` -/
def plausib : Option ℚ → Bool
  | none => false
  | some v => 100 ≤ v && v ≤ 20000

/-- `plausibPsqm(n) { return n != null && n >= 2 && n <= 100; }` -/
def plausibPsqm : Option ℚ → Bool
  | none => false
  | some v => 2 ≤ v && v ≤ 100

/-- `if (x != null && !plausib(x)) x = null;` -/
def dropImplaus (o : Option ℚ) : Option ℚ :=
  match o with
  | none => none
  | some v => if plausib (some v) then some v else none

structure RangeRef where
  min : Option ℚ
  max : Option ℚ
  precio_ref : Option ℚ
deriving DecidableEq

/-- `sanitizeRange({min, max, precio_ref})` of V1 and P0: swap an
inverted pair, then null every implausible value. -/
def sanitizeRange (r : RangeRef) : RangeRef :=
  let p :=
    match r.min, r.max with
    | some a, some b => if a > b then (some b, some a) else (some a, some b)
    | a, b => (a, b)
  { min := dropImplaus p.1, max := dropImplaus p.2,
    precio_ref := dropImplaus r.precio_ref }

/-! ## The concrete patterns of the three revisions -/

/-- V1 `rxPsqm`: `([\d]{1,3}(?:\.\d{3})*(?:,\d{1,2})?)\s*(?:€|euros?)\s*\/\s*m[²2]`. -/
def rxPsqmV1 : RE :=
  rcat [rStrict13, rstarSp, rEur, rstarSp, .chLit '/', rstarSp, rMsq]

/-- V1 `refPatterns` in source order. -/
def refPatternsV1 : List RE :=
  [ rcat [rlit "precio", rplusSp, rlit "de", rplusSp, rlit "referencia",
      rNotDigEur, rNumG 1],
    rcat [rlit "precio", rplusSp, rlit "referencia", rNotDigEur, rNumG 1],
    rcat [rlit "precio", rplusSp, .chLit 'm', .cls (fun c => c = 'a' || c = 'á'),
      rlit "ximo", rplusSp, rlit "de", rplusSp, rlit "referencia",
      rNotDigEur, rNumG 1],
    rcat [rlit "referencia:", rstarSp, rNumG 1, rstarSp, rEur] ]

/-- `m[ií]nimo`. -/
def rMinimo : RE :=
  rcat [.chLit 'm', .cls (fun c => c = 'i' || c = 'í'), rlit "nimo"]

/-- `m[aá]ximo`. -/
def rMaximo : RE :=
  rcat [.chLit 'm', .cls (fun c => c = 'a' || c = 'á'), rlit "ximo"]

/-- V1 `rangePatterns` in source order. -/
def rangePatternsV1 : List RE :=
  [ rcat [rlit "rango", rNotDigEur, rNumG 1, rNonDigPlus, rNumG 2, rstarSp, rEur],
    rcat [rlit "entre", rNotDigEur, rNumG 1, rNonDigPlus, rNumG 2, rstarSp, rEur],
    rcat [rNumG 1, rstarSp, rEur, rstarSp, rRangeSep, rstarSp, rNumG 2, rstarSp, rEur],
    rcat [rMinimo, rNotDigEur, rNumG 1, rNonDigPlus, rMaximo, rNotDigEur,
      rNumG 2, rstarSp, rEur] ]

/-- V1/P0 global amount scan:
`([\d]{2,3}(?:\.\d{3})*(?:,\d{1,2})?)\s*(?:€|euros?)` with /g. -/
def rxAllV1 : RE := rcat [rStrict23, rstarSp, rEur]

/-- V2 amount scan of `pickRangeFromText`: the same token followed by
`(?:€|€|euros?|eur)` and the negative lookahead `(?!\s*\/\s*m(?:2|²))`. -/
def rxAllV2 : RE :=
  rcat [rStrict23, rstarSp, rEur4,
    .lookN (rcat [rstarSp, .chLit '/', rstarSp, rMsq])]

/-- V2 `psqmPatterns` in source order. -/
def psqmPatternsV2 : List RE :=
  [ rcat [rNumG 1, rstarSp, .chLit '€', rstarSp, .chLit '/', rstarSp, rMsq],
    rcat [rMsq, rSepColon, rNumG 1, rstarSp, .chLit '€'],
    rcat [rlit "euro", ropt (.chLit 's'), rstarSp, .chLit '/', rstarSp, rMsq,
      rSepColon, rNumG 1] ]

/-- V2 `totalPatterns` in source order. -/
def totalPatternsV2 : List RE :=
  [ rcat [rNumG 1, rstarSp, .chLit '€', rstarSp, .chLit '/', rstarSp, rlit "mes"],
    rcat [rlit "total", rSepColon, rNumG 1, rstarSp, .chLit '€'],
    rcat [rlit "importe", rSepColon, rNumG 1, rstarSp, .chLit '€'],
    rcat [rlit "precio", rplusSp, rlit "de", rplusSp, rlit "referencia",
      rNotDigEur, rNumG 1, rstarSp, .chLit '€'] ]

/-- V2 `refPatterns` in source order. -/
def refPatternsV2 : List RE :=
  [ rcat [rlit "precio", rplusSp, rlit "de", rplusSp, rlit "referencia",
      rNotDigEur, rNumG 1],
    rcat [rlit "precio", rplusSp, rlit "referencia", rNotDigEur, rNumG 1],
    rcat [rlit "precio", rplusSp, rMaximo, rplusSp, rlit "de", rplusSp,
      rlit "referencia", rNotDigEur, rNumG 1],
    rcat [rlit "referencia:", rstarSp, rNumG 1, rstarSp, rEur] ]

/-- V2 `rangePatterns` in source order. -/
def rangePatternsV2 : List RE :=
  [ rcat [rlit "rango", rNotDigEur, rNumG 1, rNonDigPlus, rNumG 2],
    rcat [rlit "entre", rNotDigEur, rNumG 1, rNonDigPlus, rNumG 2, rstarSp,
      ropt rEur4],
    rcat [rMinimo, rNotDigEur, rNumG 1, rNonDigPlus, rMaximo, rNotDigEur, rNumG 2],
    rcat [rNumG 1, rstarSp, rEur, rstarSp, rRangeSep, rstarSp, rNumG 2,
      rstarSp, rEur] ]

/-- V2 `/precio\s+de\s+referencia/` (the `.test` in `sanitizeRange`). -/
def rRefPhrase : RE :=
  rcat [rlit "precio", rplusSp, rlit "de", rplusSp, rlit "referencia"]

/-- V2 `sanitizeRange` inner grab:
`precio\s+de\s+referencia[^\d€]*([\d\.\,]+)`. -/
def rRefGrabV2 : RE := rcat [rRefPhrase, rNotDigEur, rNumG 1]

/-- P0 `refPatterns` (these require a trailing currency marker). -/
def refPatternsP0 : List RE :=
  [ rcat [rlit "precio", rplusSp, rlit "de", rplusSp, rlit "referencia",
      rNotDigEur, rNumG 1, rstarSp, rEur],
    rcat [rlit "precio", rplusSp, rlit "referencia", rNotDigEur, rNumG 1,
      rstarSp, rEur],
    rcat [rlit "precio", rplusSp, rMaximo, rplusSp, rlit "de", rplusSp,
      rlit "referencia", rNotDigEur, rNumG 1, rstarSp, rEur] ]

/-- P0 `rangePatterns` in source order (with the lazy gaps `.{0,20}?`
and `.{0,30}?`). -/
def rangePatternsP0 : List RE :=
  [ rcat [rlit "entre", rNotDigEur, rNumG 1, rstarSp, rEur,
      lazyUpTo 20 rdotAny, rNumG 2, rstarSp, rEur],
    rcat [rNumG 1, rstarSp, rEur, rstarSp, rRangeSep, rstarSp, rNumG 2,
      rstarSp, rEur],
    rcat [rMinimo, rNotDigEur, rNumG 1, rstarSp, rEur, lazyUpTo 30 rdotAny,
      rMaximo, rNotDigEur, rNumG 2, rstarSp, rEur] ]

/-- P0 €/m² patterns: `([\d\.\,]+)\s*€\s*\/\s*m²` and the `m2` variant. -/
def rxPsqmP0a : RE :=
  rcat [rNumG 1, rstarSp, .chLit '€', rstarSp, .chLit '/', rstarSp,
    .chLit 'm', .chLit '²']

def rxPsqmP0b : RE :=
  rcat [rNumG 1, rstarSp, .chLit '€', rstarSp, .chLit '/', rstarSp,
    .chLit 'm', .chLit '2']

/-! ## Extraction pipelines -/

/-- `String(t || "").replace(/\s+/g, " ")` — collapse whitespace runs. -/
def collapseWsAux : Bool → List Char → List Char
  | _, [] => []
  | prevSp, c :: rest =>
    if isSpaceCh c then
      if prevSp then collapseWsAux true rest
      else ' ' :: collapseWsAux true rest
    else c :: collapseWsAux false rest

def collapseWs (s : String) : String := String.mk (collapseWsAux false s.data)

/-- Group 1 of a match, parsed: `eurToNum(m[1])`. -/
def parse1 (caps : Caps) : Option ℚ :=
  match capGet caps 1 with
  | some g => eurToNum g
  | none => none

def parse2 (caps : Caps) : Option ℚ :=
  match capGet caps 2 with
  | some g => eurToNum g
  | none => none

/-- `for (const rx of pats) { const m = text.match(rx); if (m) { x =
eurToNum(m[1]); break; } }` — the outer `Option` records whether any
pattern matched (the loop breaks on a match even when parsing fails). -/
def firstMatch1 : List RE → List Char → Option (Option ℚ)
  | [], _ => none
  | p :: ps, s =>
    match findFirstL p s with
    | some caps => some (parse1 caps)
    | none => firstMatch1 ps s

/-- Same loop for range patterns, producing `(min, max)`. -/
def firstMatch2 : List RE → List Char → Option (Option ℚ × Option ℚ)
  | [], _ => none
  | p :: ps, s =>
    match findFirstL p s with
    | some caps => some (parse1 caps, parse2 caps)
    | none => firstMatch2 ps s

def flat1 (o : Option (Option ℚ)) : Option ℚ :=
  match o with
  | some v => v
  | none => none

def flat2 (o : Option (Option ℚ × Option ℚ)) : Option ℚ × Option ℚ :=
  match o with
  | some p => p
  | none => (none, none)

/-- `nums.sort((a, b) => a - b)` — ascending numeric sort. -/
def insAsc (x : ℚ) : List ℚ → List ℚ
  | [] => [x]
  | y :: ys => if x ≤ y then x :: y :: ys else y :: insAsc x ys

def sortAsc (l : List ℚ) : List ℚ := l.foldr insAsc []

def plausibQ (v : ℚ) : Bool := 100 ≤ v && v ≤ 20000

/-- V1 `extractFromText` tail: sanitize the range and null an
implausible €/m² value. -/
structure ExtractV1 where
  min : Option ℚ
  max : Option ℚ
  precio_ref : Option ℚ
  psqm : Option ℚ
deriving DecidableEq

def finishV1 (mn mx pref psqm : Option ℚ) : ExtractV1 :=
  let out := sanitizeRange ⟨mn, mx, pref⟩
  ⟨out.min, out.max, out.precio_ref,
    if plausibPsqm psqm then psqm else none⟩

/-- The `nums = all.filter(plausib)` step of the V1 fallback: a pushed
`eurToNum` result survives when it is non-null and plausible. -/
def plausibFilter (o : Option ℚ) : Option ℚ :=
  match o with
  | some v => if plausibQ v then some v else none
  | none => none

/-- The tail of the V1 fallback (server.mjs 87–94) after filtering and
sorting: `if (nums.length >= 2) { min = nums[0]; max =
nums[nums.length-1]; }` — fewer than two survivors leave both null. -/
def fallbackCore (nums : List ℚ) : Option ℚ × Option ℚ :=
  if 2 ≤ nums.length then (nums.head?, nums.getLast?) else (none, none)

/-- V1 fallback scan over the pushed `eurToNum` results: filter by
`plausib`, sort ascending, then take smallest and largest when at least
two survive. -/
def fallbackV1 (all : List (Option ℚ)) : Option ℚ × Option ℚ :=
  fallbackCore (sortAsc (all.filterMap plausibFilter))

/-- V1 `extractFromText`: €/m², reference price, explicit range, then the
fallback collecting every `…€` amount, filtering by `plausib`, sorting
ascending and taking the first and last element when at least two
survive. -/
def extractFromText (t : String) : ExtractV1 :=
  let text := collapseWs t
  let s := text.data
  let psqm :=
    match findFirstL rxPsqmV1 s with
    | some caps => parse1 caps
    | none => none
  let pref := flat1 (firstMatch1 refPatternsV1 s)
  let mm := flat2 (firstMatch2 rangePatternsV1 s)
  let mm2 :=
    if mm.1 = none && mm.2 = none then
      fallbackV1 ((scanAll rxAllV1 s).map parse1)
    else mm
  finishV1 mm2.1 mm2.2 pref psqm

/-- V2 `pickRangeFromText`: collected amounts, sorted; the loop returns
the first adjacent pair of plausible values at least 10 apart. -/
def pickPair : List ℚ → Option (ℚ × ℚ)
  | a :: b :: rest =>
    if plausibQ a && plausibQ b && 10 ≤ qSub b a then some (a, b)
    else pickPair (b :: rest)
  | _ => none

def collectEurosV2 (s : List Char) : List ℚ :=
  ((scanAll rxAllV2 s).map parse1).filterMap (fun o => o)

/-- The part of V2 `pickRangeFromText` after the collection loop:
`return { min: nums[0] ?? null, max: nums[1] ?? null }` when the pair
loop finds nothing. -/
def pickRangeCore (numsIn : List ℚ) : Option ℚ × Option ℚ :=
  let nums := sortAsc numsIn
  match pickPair nums with
  | some p => (some p.1, some p.2)
  | none => (nums.get? 0, nums.get? 1)

def pickRangeFromText (t : String) : Option ℚ × Option ℚ :=
  pickRangeCore (collectEurosV2 t.data)

/-- P0 `pickRangeFromText`: two or more values give `{min: nums[0],
max: nums[1]}`, exactly one gives `{min: null, max: nums[0]}`. -/
def collectEurosP0 (s : List Char) : List ℚ :=
  ((scanAll rxAllV1 s).map parse1).filterMap (fun o => o)

def pickRange0Core (numsIn : List ℚ) : Option ℚ × Option ℚ :=
  let nums := sortAsc numsIn
  match nums with
  | a :: b :: _ => (some a, some b)
  | [a] => (none, some a)
  | [] => (none, none)

def pickRangeFromText0 (t : String) : Option ℚ × Option ℚ :=
  pickRange0Core (collectEurosP0 t.data)

/-- `Math.round` rounds half toward positive infinity:
`round q = ⌊q + 1/2⌋ = fdiv (2 num + den) (2 den)`. -/
def jsRound (q : ℚ) : ℚ :=
  ((Int.fdiv (2 * q.num + (q.den : ℤ)) (2 * (q.den : ℤ)) : ℤ) : ℚ)

structure ExtractV2 where
  min : Option ℚ
  max : Option ℚ
  precio_ref : Option ℚ
  total : Option ℚ
  psqm : Option ℚ
deriving DecidableEq

/-- V2 `sanitizeRange({min,max,precio_ref,total,psqm}, text)`: swap and
bound-check min/max only; re-derive an absent or implausible total from
an explicit reference-price phrase in `text`; and fall back to the
half-up-rounded midpoint of a plausible range, kept to two decimals. -/
def sanitizeRangeV2 (r : ExtractV2) (text : String) : ExtractV2 :=
  let p :=
    match r.min, r.max with
    | some a, some b => if a > b then (some b, some a) else (some a, some b)
    | a, b => (a, b)
  let mn := dropImplaus p.1
  let mx := dropImplaus p.2
  let total :=
    if (r.total = none || !plausib r.total) && text ≠ "" &&
        (findFirstL rRefPhrase text.data).isSome then
      let v :=
        match findFirstL rRefGrabV2 text.data with
        | some caps => parse1 caps
        | none => none
      if plausib v then v else r.total
    else r.total
  let total2 :=
    if total = none && plausib mn && plausib mx then
      match mn, mx with
      | some a, some b =>
        some (qDivN (jsRound (qMulN (qDivN (qAdd a b) 2) 100)) 100)
      | _, _ => total
    else total
  ⟨mn, mx, r.precio_ref, total2, r.psqm⟩

/-- V2 `extractAll`: €/m², explicit total (keeping the last match and
stopping early only on a plausible one), reference price (aliased into
an absent total), explicit range, sanitization, and the amount-list
fallback when everything but psqm is still null. -/
def totalLoopV2 : List RE → List Char → Option ℚ → Option ℚ
  | [], _, acc => acc
  | p :: ps, s, acc =>
    match findFirstL p s with
    | some caps =>
      let t := parse1 caps
      if plausib t then t else totalLoopV2 ps s t
    | none => totalLoopV2 ps s acc

def extractAll (raw : String) : ExtractV2 :=
  let oneLine := collapseWs raw
  let s := oneLine.data
  let psqm := flat1 (firstMatch1 psqmPatternsV2 s)
  let total0 := totalLoopV2 totalPatternsV2 s none
  let pref := flat1 (firstMatch1 refPatternsV2 s)
  let total1 := if pref.isSome && total0 = none then pref else total0
  let mm := flat2 (firstMatch2 rangePatternsV2 s)
  let out := sanitizeRangeV2 ⟨mm.1, mm.2, pref, total1, psqm⟩ oneLine
  if out.min = none && out.max = none && out.total = none &&
      out.precio_ref = none then
    let fb := pickRangeFromText oneLine
    sanitizeRangeV2 ⟨fb.1, fb.2, out.precio_ref, out.total, out.psqm⟩ oneLine
  else out

/-- P0 `extractRangeAndRef`: reference price (currency marker required),
explicit range, amount-list fallback, €/m² (returned unchecked), and
V1-style sanitization of min/max/ref only. -/
structure ExtractP0 where
  min : Option ℚ
  max : Option ℚ
  precio_ref : Option ℚ
  psqm : Option ℚ
deriving DecidableEq

def extractRangeAndRef (raw : String) : ExtractP0 :=
  let t := collapseWs raw
  let s := t.data
  let pref := flat1 (firstMatch1 refPatternsP0 s)
  let mm := flat2 (firstMatch2 rangePatternsP0 s)
  let mm2 := if mm.1 = none && mm.2 = none then pickRangeFromText0 t else mm
  let psqm :=
    match findFirstL rxPsqmP0a s with
    | some caps => parse1 caps
    | none =>
      match findFirstL rxPsqmP0b s with
      | some caps => parse1 caps
      | none => none
  let out := sanitizeRange ⟨mm2.1, mm2.2, pref⟩
  ⟨out.min, out.max, out.precio_ref, psqm⟩

/-- P0 total derivation (line 422):
`const total = out.precio_ref ?? out.max ?? out.min ?? null;` -/
def totalP0 (out : RangeRef) : Option ℚ :=
  match out.precio_ref with
  | some v => some v
  | none =>
    match out.max with
    | some v => some v
    | none => out.min

/-! ## The hostname check `isOnSerpavi` -/

/-- Substring test on character lists (JS `String.prototype.includes`). -/
def listLeads : List Char → List Char → Bool
  | [], _ => true
  | _ :: _, [] => false
  | a :: as2, b :: bs => a = b && listLeads as2 bs

def listHas (needle : List Char) : List Char → Bool
  | [] => listLeads needle []
  | c :: rest => listLeads needle (c :: rest) || listHas needle rest

def strContains (hay needle : String) : Bool := listHas needle.data hay.data

def isAlphaCh (c : Char) : Bool :=
  ('a' ≤ c && c ≤ 'z') || ('A' ≤ c && c ≤ 'Z')

/-- Split at the first `://`, keeping the scheme and the remainder. -/
def findSchemeSep : List Char → Option (List Char × List Char)
  | [] => none
  | ':' :: '/' :: '/' :: rest => some ([], rest)
  | c :: rest =>
    match findSchemeSep rest with
    | some p => some (c :: p.1, p.2)
    | none => none

def schemeOk : List Char → Bool
  | [] => false
  | c :: rest =>
    isAlphaCh c &&
      rest.all (fun d => isAlphaCh d || isDigitCh d || d = '+' || d = '-' || d = '.')

/-- Model of the `hostname` field of the WHATWG `URL` parser used by the
runtime, for addresses of the shape `scheme://[userinfo@]host[:port]...`:
the authority runs to the first `/`, `?` or `#`; the host is what follows
the last `@` and precedes the port colon, lowercased.  Strings the real
parser rejects (and scheme-only addresses such as `mailto:`, whose empty
hostname can never contain the target domain) yield `none`, which
`isOnSerpavi` turns into `false` exactly as its `catch` branch does. -/
def urlHostname (s : String) : Option String :=
  match findSchemeSep s.data with
  | none => none
  | some (scheme, rest) =>
    if schemeOk scheme then
      let auth := rest.takeWhile (fun c => c ≠ '/' && c ≠ '?' && c ≠ '#')
      let hp :=
        if auth.contains '@' then
          (auth.reverse.takeWhile (fun c => c ≠ '@')).reverse
        else auth
      let host :=
        match hp with
        | '[' :: _ => hp.takeWhile (fun c => c ≠ ']') ++ [']']
        | _ => hp.takeWhile (fun c => c ≠ ':')
      if host.isEmpty then none
      else some (String.mk (host.map Char.toLower))
    else none

/-- `isOnSerpavi(urlStr)`:
`try { return new URL(urlStr).hostname.includes("serpavi.mivau.gob.es"); }
catch { return false; }` -/
def isOnSerpavi (urlStr : String) : Bool :=
  match urlHostname urlStr with
  | some h => strContains h "serpavi.mivau.gob.es"
  | none => false

/-! ## The request handler

The handler body performs browser I/O, so it is embedded as a function
of the request fields and of the outcome of the `work` async block.
`WorkOutcome` enumerates exactly the ways the `Promise.race` between
`work` and the global-timeout rejection can settle: `work` resolves to
an `ok:true` payload, `work` resolves to an `ok:false` soft failure,
`work` rejects with a thrown error, or the timer rejects first (the
`Error("TIMEOUT_GLOBAL_…")`).  The `res.status(504)` line after the race
is unreachable — `work` always resolves to an object carrying `ok` — so
it has no counterpart here.  None of the three revisions ever calls
`browser.close()` (the token `close` does not occur in either source
file), so no branch of the embedding sets `browserClosed`. -/

/-- A JSON request-body field value. -/
inductive JVal : Type
  | undef : JVal
  | jnull : JVal
  | str : String → JVal
  | num : ℚ → JVal
  | jbool : Bool → JVal
deriving DecidableEq

def jsFalsy : JVal → Bool
  | .undef => true
  | .jnull => true
  | .str s => s = ""
  | .num q => q = 0
  | .jbool b => !b

def fracDigitsAux : Nat → Nat → Nat → List Char
  | 0, _, _ => []
  | _ + 1, 0, _ => []
  | fuel + 1, rem, den =>
    Char.ofNat ('0'.toNat + rem * 10 / den) :: fracDigitsAux fuel (rem * 10 % den) den

/-- Decimal rendering of a rational, standing in for the JS number →
string conversion.  Only two aspects of it are ever relevant to the
handler: whether the result is empty (it never is) and whether it
matches `^[A-Z0-9]{20}$`, and for those this rendering agrees with JS. -/
def ratToJsString (q : ℚ) : String :=
  let na := q.num.natAbs
  let frac := fracDigitsAux 20 (na % q.den) q.den
  (if q.num < 0 then "-" else "") ++ Nat.repr (na / q.den) ++
    (if frac.isEmpty then "" else "." ++ String.mk frac)

/-- JS `String(v)`. -/
def JVal.toJsString : JVal → String
  | .undef => "undefined"
  | .jnull => "null"
  | .str s => s
  | .num q => ratToJsString q
  | .jbool b => if b then "true" else "false"

/-- `/^[A-Z0-9]{20}$/.test(s)`. -/
def rcFormat (s : String) : Bool :=
  s.data.length = 20 &&
    s.data.all (fun c => ('A' ≤ c && c ≤ 'Z') || isDigitCh c)

/-- `rc` passes validation: `!(!rc || !/^[A-Z0-9]{20}$/.test(String(rc)))`. -/
def rcValid (rc : JVal) : Bool := !jsFalsy rc && rcFormat rc.toJsString

/-- V1 missing-attribute computation over
`required = { ascensor, planta, estado, etiqueta }` (in that key order):
`Object.entries(required).filter(([_, v]) => v === undefined || v === null
|| v === "").map(([k]) => k)`. -/
def isMissingV1 (v : JVal) : Bool :=
  v = JVal.undef || v = JVal.jnull || v = JVal.str ""

def missingV1 (ascensor planta estado etiqueta : JVal) : List String :=
  [("ascensor", ascensor), ("planta", planta), ("estado", estado),
    ("etiqueta", etiqueta)].filterMap
    (fun kv => if isMissingV1 kv.2 then some kv.1 else none)

structure OkPayload where
  min : Option ℚ
  max : Option ℚ
  precio_ref : Option ℚ
  total : Option ℚ
  psqm : Option ℚ
deriving DecidableEq

inductive WorkOutcome : Type
  | resolvedOk : OkPayload → WorkOutcome
  | resolvedSoft : String → WorkOutcome
  | rejected : String → WorkOutcome
  | deadline : WorkOutcome
deriving DecidableEq

inductive Resp : Type
  | badRC : Resp
  | needsAttrs : List String → Resp
  | faltanCampos : List String → Resp
  | okJson : OkPayload → Resp
  | softJson : String → Resp
  | genericError : String → Resp
deriving DecidableEq

structure Trace where
  status : Nat
  resp : Resp
  browserLaunched : Bool
  browserClosed : Bool
deriving DecidableEq

/-- The V1 `app.post("/")` handler (server.mjs, first revision):
RC validation, the four-field missing check, `chromium.launch`, then the
race between `work` and the 65 s timer, with thrown faults caught by the
outer boundary as a 500 `{ok:false, error:String(err)}` envelope. -/
def handleV1 (rc ascensor planta estado etiqueta : JVal)
    (outcome : WorkOutcome) : Trace :=
  if !rcValid rc then ⟨400, .badRC, false, false⟩
  else
    let missing := missingV1 ascensor planta estado etiqueta
    if missing ≠ [] then ⟨200, .needsAttrs missing, false, false⟩
    else
      match outcome with
      | .resolvedOk r => ⟨200, .okJson r, true, false⟩
      | .resolvedSoft e => ⟨200, .softJson e, true, false⟩
      | .rejected m => ⟨500, .genericError m, true, false⟩
      | .deadline => ⟨500, .genericError "Error: TIMEOUT_GLOBAL_65s", true, false⟩

/-- P0 missing check: `!etiqueta || !estado || (planta === undefined ||
planta === null || String(planta) === "")`, with the needs list
`["etiqueta","estado","planta"].filter(k => !(v && String(v).length))`. -/
def p0AttrsMissing (etiqueta estado planta : JVal) : Bool :=
  jsFalsy etiqueta || jsFalsy estado ||
    (planta = JVal.undef || planta = JVal.jnull || planta.toJsString = "")

def p0Needs (etiqueta estado planta : JVal) : List String :=
  [("etiqueta", etiqueta), ("estado", estado), ("planta", planta)].filterMap
    (fun kv =>
      if jsFalsy kv.2 || (kv.2.toJsString).length = 0 then some kv.1 else none)

/-- The P0 `app.post("/")` handler (part_000): RC validation, the
FALTAN_CAMPOS check over `{etiqueta, estado, planta}`, launch, and the
race against the 40 s timer. -/
def handleP0 (rc etiqueta estado planta : JVal)
    (outcome : WorkOutcome) : Trace :=
  if !rcValid rc then ⟨400, .badRC, false, false⟩
  else if p0AttrsMissing etiqueta estado planta then
    ⟨200, .faltanCampos (p0Needs etiqueta estado planta), false, false⟩
  else
    match outcome with
    | .resolvedOk r => ⟨200, .okJson r, true, false⟩
    | .resolvedSoft e => ⟨200, .softJson e, true, false⟩
    | .rejected m => ⟨500, .genericError m, true, false⟩
    | .deadline => ⟨500, .genericError "Error: TIMEOUT_GLOBAL_40s", true, false⟩

/-- Whether `gotoSerpavi` settles before the 25 s resolution deadline of
`ensureSerpaviContext`. -/
inductive NavResolution : Type
  | resolved : NavResolution
  | deadlineExpired : NavResolution
deriving DecidableEq

/-- P0 `ensureSerpaviContext`: the navigation race either yields a
surface or rejects with `new Error("SERPAVI_UNREACHABLE")`.  `Except`
models the awaited promise: `error` is a rejection, i.e. a throw at the
`await` inside `work`. -/
def ensureSerpaviContext : NavResolution → Except String Unit
  | .resolved => .ok ()
  | .deadlineExpired => .error "SERPAVI_UNREACHABLE"

/-- How `work` settles given the navigation resolution: a rejection of
`ensureSerpaviContext` propagates out of `work` as a thrown fault whose
`String(err)` is `"Error: " ++ message`; otherwise `work` continues and
settles as `rest` says. -/
def workOutcomeOfNav (nav : NavResolution) (rest : WorkOutcome) : WorkOutcome :=
  match ensureSerpaviContext nav with
  | .error m => .rejected ("Error: " ++ m)
  | .ok _ => rest

/-! ## Helper lemmas -/

/-- Both components of `sortedOpt` present means the first is ≤ the second. -/
def sortedOpt : Option ℚ → Option ℚ → Bool
  | some a, some b => a ≤ b
  | _, _ => true

def within (o : Option ℚ) (lo hi : ℚ) : Bool :=
  match o with
  | none => true
  | some v => lo ≤ v && v ≤ hi

/-- All four retained fields of a V1 extraction lie inside their bounds. -/
def boundOkV1 (e : ExtractV1) : Bool :=
  within e.min 100 20000 && within e.max 100 20000 &&
    within e.precio_ref 100 20000 && within e.psqm 2 100

theorem within_dropImplaus (o : Option ℚ) :
    within (dropImplaus o) 100 20000 = true := by
  cases o with
  | none => rfl
  | some v =>
    simp only [dropImplaus]
    by_cases h : plausib (some v) = true
    · rw [if_pos h]; exact h
    · rw [if_neg h]; rfl

theorem sortedOpt_dropImplaus {a b : ℚ} (h : a ≤ b) :
    sortedOpt (dropImplaus (some a)) (dropImplaus (some b)) = true := by
  simp only [dropImplaus]
  by_cases ha : plausib (some a) = true
  · by_cases hb : plausib (some b) = true
    · rw [if_pos ha, if_pos hb]; simpa [sortedOpt] using h
    · rw [if_pos ha, if_neg hb]; rfl
  · rw [if_neg ha]
    by_cases hb : plausib (some b) = true
    · rw [if_pos hb]; rfl
    · rw [if_neg hb]; rfl

theorem finishV1_bounds (mn mx pref ps : Option ℚ) :
    boundOkV1 (finishV1 mn mx pref ps) = true := by
  have hps : within (if plausibPsqm ps then ps else none) 2 100 = true := by
    by_cases h : plausibPsqm ps = true
    · rw [if_pos h]
      cases ps with
      | none => rfl
      | some v => exact h
    · rw [if_neg (by simpa using h)]; rfl
  unfold finishV1 boundOkV1 sanitizeRange
  cases mn <;> cases mx <;>
    simp only [] <;>
    first
      | (rw [Bool.and_eq_true, Bool.and_eq_true, Bool.and_eq_true]
         exact ⟨⟨⟨within_dropImplaus _, within_dropImplaus _⟩,
           within_dropImplaus _⟩, hps⟩)

theorem pickRangeCore_pair (l : List ℚ) (a b : ℚ)
    (h : pickPair (sortAsc l) = some (a, b)) :
    pickRangeCore l = (some a, some b) := by
  simp only [pickRangeCore, h]

theorem pickRangeCore_min_none (l : List ℚ) :
    (pickRangeCore l).1 = none → (pickRangeCore l).2 = none := by
  intro h
  simp only [pickRangeCore] at h ⊢
  rcases hp : pickPair (sortAsc l) with _ | p
  · simp only [hp] at h ⊢
    rcases hn : sortAsc l with _ | ⟨x, tl⟩
    · simp [hn]
    · simp [hn] at h
  · simp only [hp] at h
    simp at h

theorem pickPair_sound : ∀ (l : List ℚ) (a b : ℚ),
    pickPair l = some (a, b) →
    plausibQ a = true ∧ plausibQ b = true ∧ 10 ≤ qSub b a
  | [], a, b, h => by simp [pickPair] at h
  | [x], a, b, h => by simp [pickPair] at h
  | x :: y :: rest, a, b, h => by
    rw [pickPair] at h
    split at h
    · rename_i hc
      obtain ⟨hx, hy⟩ : x = a ∧ y = b := by
        have := Option.some.inj h
        exact ⟨congrArg Prod.fst this, congrArg Prod.snd this⟩
      subst hx; subst hy
      simp only [Bool.and_eq_true, decide_eq_true_eq] at hc
      exact ⟨hc.1.1, hc.1.2, hc.2⟩
    · exact pickPair_sound (y :: rest) a b h

theorem mem_insAsc {x y : ℚ} : ∀ {l : List ℚ}, y ∈ insAsc x l ↔ y = x ∨ y ∈ l := by
  intro l
  induction l with
  | nil => simp [insAsc]
  | cons z zs ih =>
    by_cases h : x ≤ z
    · simp [insAsc, h, List.mem_cons]
    · simp only [insAsc, if_neg h, List.mem_cons, ih]
      tauto

theorem insAsc_sorted {x : ℚ} : ∀ {l : List ℚ},
    List.Sorted (fun a b : ℚ => a ≤ b) l →
    List.Sorted (fun a b : ℚ => a ≤ b) (insAsc x l) := by
  intro l
  induction l with
  | nil => intro _; simp [insAsc]
  | cons z zs ih =>
    intro hs
    rcases List.sorted_cons.mp hs with ⟨hz, hzs⟩
    by_cases h : x ≤ z
    · rw [insAsc, if_pos h]
      refine List.sorted_cons.mpr ⟨?_, hs⟩
      intro b hb
      rcases List.mem_cons.mp hb with h1 | h2
      · exact h1 ▸ h
      · exact le_trans h (hz b h2)
    · rw [insAsc, if_neg h]
      refine List.sorted_cons.mpr ⟨?_, ih hzs⟩
      intro b hb
      rcases mem_insAsc.mp hb with h1 | h2
      · exact h1 ▸ le_of_lt (lt_of_not_le h)
      · exact hz b h2

theorem sortAsc_sorted : ∀ (l : List ℚ),
    List.Sorted (fun a b : ℚ => a ≤ b) (sortAsc l)
  | [] => by simp [sortAsc]
  | x :: rest => insAsc_sorted (sortAsc_sorted rest)

theorem mem_sortAsc {y : ℚ} : ∀ {l : List ℚ}, y ∈ sortAsc l ↔ y ∈ l := by
  intro l
  induction l with
  | nil => exact Iff.rfl
  | cons x rest ih =>
    show y ∈ insAsc x (sortAsc rest) ↔ y ∈ x :: rest
    rw [mem_insAsc, ih]
    simp [List.mem_cons]

theorem sorted_head?_le_getLast? {l : List ℚ} {a b : ℚ}
    (hs : List.Sorted (fun a b : ℚ => a ≤ b) l)
    (ha : l.head? = some a) (hb : l.getLast? = some b) : a ≤ b := by
  cases l with
  | nil => cases ha
  | cons x rest =>
    have hax : x = a := by simpa using ha
    subst hax
    rcases List.mem_cons.mp (List.mem_of_getLast?_eq_some hb) with h1 | h2
    · exact le_of_eq h1.symm
    · exact (List.sorted_cons.mp hs).1 b h2

theorem plausibQ_of_mem_filtered {l : List (Option ℚ)} {v : ℚ}
    (h : v ∈ l.filterMap plausibFilter) : plausibQ v = true := by
  rw [List.mem_filterMap] at h
  obtain ⟨o, _, ho⟩ := h
  cases o with
  | none => cases ho
  | some w =>
    by_cases hw : plausibQ w = true
    · have hwv : w = v := by simpa [plausibFilter, hw] using ho
      exact hwv ▸ hw
    · simp [plausibFilter, hw] at ho

/-- A pair returned by the V1 fallback consists of plausible values in
order: both come from the plausibility-filtered list and are the head
and last element of its ascending sort. -/
theorem fallbackV1_bounds (all : List (Option ℚ)) (a b : ℚ)
    (h : fallbackV1 all = (some a, some b)) :
    plausibQ a = true ∧ plausibQ b = true ∧ a ≤ b := by
  simp only [fallbackV1, fallbackCore] at h
  split at h
  · have ha : (sortAsc (all.filterMap plausibFilter)).head? = some a :=
      congrArg Prod.fst h
    have hb : (sortAsc (all.filterMap plausibFilter)).getLast? = some b :=
      congrArg Prod.snd h
    refine ⟨?_, ?_, sorted_head?_le_getLast? (sortAsc_sorted _) ha hb⟩
    · exact plausibQ_of_mem_filtered
        (mem_sortAsc.mp (List.mem_of_mem_head? (show _ ∈ _ from ha)))
    · exact plausibQ_of_mem_filtered
        (mem_sortAsc.mp (List.mem_of_getLast?_eq_some hb))
  · simp at h

/-- The V1 fallback never yields only one of min and max: with fewer
than two survivors both stay null, with two or more both are set. -/
theorem fallbackV1_none_iff (all : List (Option ℚ)) :
    (fallbackV1 all).1 = none ↔ (fallbackV1 all).2 = none := by
  simp only [fallbackV1, fallbackCore]
  split
  · simp
  · exact Iff.rfl

/-! ## The claims -/

/-- C1 (the handler never releases the browser): in the V1 and P0
handlers no exit path — success, soft failure, thrown fault, or expiry
of the global deadline race — ever closes the launched browser session:
the `browserClosed` flag of every trace is `false`, while a validated
request does launch a browser on each of those paths. -/
theorem C1_browser_never_closed :
    (∀ rc ascensor planta estado etiqueta o,
      (handleV1 rc ascensor planta estado etiqueta o).browserClosed = false) ∧
    (∀ rc etiqueta estado planta o,
      (handleP0 rc etiqueta estado planta o).browserClosed = false) ∧
    (∀ o, (handleV1 (.str "1234567890ABCDEFGHIJ") (.jbool true) (.str "2")
        (.str "bueno") (.str "C") o).browserLaunched = true ∧
      (handleV1 (.str "1234567890ABCDEFGHIJ") (.jbool true) (.str "2")
        (.str "bueno") (.str "C") o).browserClosed = false) := by
  refine ⟨?_, ?_, ?_⟩
  · intro rc ascensor planta estado etiqueta o
    simp only [handleV1]
    split
    · rfl
    · split
      · rfl
      · cases o <;> rfl
  · intro rc etiqueta estado planta o
    simp only [handleP0]
    split
    · rfl
    · split
      · rfl
      · cases o <;> rfl
  · intro o
    cases o <;> exact ⟨rfl, rfl⟩

/-- C2 counterexample: with a valid identifier, `planta` and `estado`
present and `etiqueta` absent, the V1 handler also reports the absent
`ascensor` — the needs list is `["ascensor", "etiqueta"]`, not exactly
the missing members of {etiqueta, estado, planta}. -/
theorem C2_counterexample :
    handleV1 (.str "1234567890ABCDEFGHIJ") .undef (.str "2") (.str "bueno")
        .undef (.resolvedSoft "x") =
      ⟨200, .needsAttrs ["ascensor", "etiqueta"], false, false⟩ ∧
    (["ascensor", "etiqueta"] : List String) ≠ ["etiqueta"] := by
  exact ⟨by decide, by decide⟩

/-- C2 amended: the revisions disagree on the mandatory set.  The V1
handler treats the four attributes {ascensor, planta, estado, etiqueta}
as mandatory: whenever any of them is absent (undefined, null, or the
empty string) the response is the needs list of exactly the missing
ones among those four, with status 200 and no browser launched.  The P0
handler guards only {etiqueta, estado, planta} — with those three
present it launches the browser, with no ascensor in its mandatory set —
and when its guard fires it answers FALTAN_CAMPOS with a list computed
by a falsiness filter, which can name fields the guard itself treated
as present: `planta = 0` passes the guard yet is listed whenever another
field is missing. -/
theorem C2_amended :
    (∀ (rc ascensor planta estado etiqueta : JVal) (o : WorkOutcome),
      rcValid rc = true → missingV1 ascensor planta estado etiqueta ≠ [] →
      handleV1 rc ascensor planta estado etiqueta o =
        ⟨200, .needsAttrs (missingV1 ascensor planta estado etiqueta),
          false, false⟩) ∧
    (∀ (rc etiqueta estado planta : JVal) (o : WorkOutcome),
      rcValid rc = true → p0AttrsMissing etiqueta estado planta = true →
      handleP0 rc etiqueta estado planta o =
        ⟨200, .faltanCampos (p0Needs etiqueta estado planta), false, false⟩) ∧
    (∀ (rc etiqueta estado planta : JVal) (o : WorkOutcome),
      rcValid rc = true → p0AttrsMissing etiqueta estado planta = false →
      (handleP0 rc etiqueta estado planta o).browserLaunched = true) ∧
    p0AttrsMissing (.str "C") (.str "bueno") (.num 0) = false ∧
    p0Needs .undef (.str "bueno") (.num 0) = ["etiqueta", "planta"] := by
  refine ⟨?_, ?_, ?_, by decide, by decide⟩
  · intro rc ascensor planta estado etiqueta o hrc h
    unfold handleV1
    rw [hrc]
    simp only [Bool.not_true, Bool.false_eq_true, if_false]
    rw [if_pos h]
  · intro rc etiqueta estado planta o hrc h
    unfold handleP0
    rw [hrc]
    simp only [Bool.not_true, Bool.false_eq_true, if_false]
    rw [if_pos h]
  · intro rc etiqueta estado planta o hrc h
    unfold handleP0
    rw [hrc]
    simp only [Bool.not_true, Bool.false_eq_true, if_false]
    rw [if_neg (by simp [h])]
    cases o <;> rfl

/-- C2 amended, witness: V1 with only `ascensor` absent answers the
needs list; P0 with `etiqueta` absent and `planta = 0` lists both of
them; P0 with the three guarded fields present launches even though no
`ascensor` was supplied. -/
theorem C2_amended_witness :
    handleV1 (.str "1234567890ABCDEFGHIJ") .undef (.str "1") (.str "nuevo")
        (.str "A") (.resolvedOk ⟨none, none, none, none, none⟩) =
      ⟨200, .needsAttrs ["ascensor"], false, false⟩ ∧
    handleP0 (.str "1234567890ABCDEFGHIJ") .undef (.str "bueno") (.num 0)
        (.resolvedSoft "x") =
      ⟨200, .faltanCampos ["etiqueta", "planta"], false, false⟩ ∧
    (handleP0 (.str "1234567890ABCDEFGHIJ") (.str "C") (.str "bueno")
        (.str "3") (.resolvedOk ⟨none, none, none, none, none⟩)).browserLaunched
      = true := by
  refine ⟨C2_amended.1 _ _ _ _ _ _ (by decide) (by decide), ?_, ?_⟩
  · exact C2_amended.2.1 _ _ _ _ _ (by decide) (by decide)
  · exact C2_amended.2.2.1 _ _ _ _ _ (by decide) (by decide)

/-- C3 counterexample: when the navigation race of
`ensureSerpaviContext` expires, the P0 handler reports the resulting
`SERPAVI_UNREACHABLE` through the generic error envelope with transport
status 500 — not as a structured ok=false soft failure with a normal
status. -/
theorem C3_counterexample :
    handleP0 (.str "1234567890ABCDEFGHIJ") (.str "C") (.str "bueno")
        (.str "3") (workOutcomeOfNav .deadlineExpired (.resolvedSoft "x")) =
      ⟨500, .genericError "Error: SERPAVI_UNREACHABLE", true, false⟩ ∧
    (500 : Nat) ≠ 200 := by
  exact ⟨by decide, by decide⟩

/-- C3 amended: for every request that passes validation, failure of
navigation resolution within the 25 s deadline is a thrown
`SERPAVI_UNREACHABLE` fault — the race of `ensureSerpaviContext`
rejects — which the outer boundary reports through the generic error
envelope with status 500, whatever the rest of the pipeline would have
produced; the structured ok=false soft-failure responses with status
200 are the ones `work` itself resolves to (the search-input and
extraction failures). -/
theorem C3_amended (rc etiqueta estado planta : JVal) (rest : WorkOutcome)
    (e : String) (hrc : rcValid rc = true)
    (hattrs : p0AttrsMissing etiqueta estado planta = false) :
    handleP0 rc etiqueta estado planta
        (workOutcomeOfNav .deadlineExpired rest) =
      ⟨500, .genericError "Error: SERPAVI_UNREACHABLE", true, false⟩ ∧
    handleP0 rc etiqueta estado planta (.resolvedSoft e) =
      ⟨200, .softJson e, true, false⟩ ∧
    ensureSerpaviContext .deadlineExpired = .error "SERPAVI_UNREACHABLE" := by
  have hv : handleP0 rc etiqueta estado planta
      (workOutcomeOfNav .deadlineExpired rest) =
      handleP0 rc etiqueta estado planta
        (.rejected "Error: SERPAVI_UNREACHABLE") := rfl
  rw [hv]
  unfold handleP0
  rw [hrc]
  simp only [Bool.not_true, Bool.false_eq_true, if_false]
  rw [if_neg (by simp [hattrs]), if_neg (by simp [hattrs])]
  exact ⟨rfl, rfl, rfl⟩

/-- C3 amended, witness at a concrete validated request. -/
theorem C3_amended_witness :
    handleP0 (.str "1234567890ABCDEFGHIJ") (.str "C") (.str "bueno")
        (.str "3") (workOutcomeOfNav .deadlineExpired
          (.resolvedOk ⟨none, none, none, none, none⟩)) =
      ⟨500, .genericError "Error: SERPAVI_UNREACHABLE", true, false⟩ ∧
    handleP0 (.str "1234567890ABCDEFGHIJ") (.str "C") (.str "bueno")
        (.str "3") (.resolvedSoft "RC_INPUT_NOT_FOUND_ON_APP") =
      ⟨200, .softJson "RC_INPUT_NOT_FOUND_ON_APP", true, false⟩ := by
  have h := C3_amended (.str "1234567890ABCDEFGHIJ") (.str "C")
    (.str "bueno") (.str "3") (.resolvedOk ⟨none, none, none, none, none⟩)
    "RC_INPUT_NOT_FOUND_ON_APP" (by decide) (by decide)
  exact ⟨h.1, h.2.1⟩

/-- C4 counterexample: in the V2 fallback scan a single collected value
becomes `min` with `max` left null — not `max` as claimed — and in the
P0 fallback scan the selected pair need be neither plausible nor
separated: for the three amounts 30, 31, 900 it returns (30, 31),
although neither value is plausible and their distance is below 10. -/
theorem C4_counterexample :
    pickRangeFromText "950 €" = (some 950, none) ∧
    pickRangeFromText "950 €" ≠ (none, some 950) ∧
    pickRangeFromText0 "30 € y 31 € y 900 €" = (some 30, some 31) ∧
    plausibQ 30 = false ∧ plausibQ 31 = false ∧ ¬(10 ≤ qSub 31 30) := by
  refine ⟨by decide, by decide, by decide, by decide, by decide, by decide⟩

/-- C4 amended: the three fallback scans the claim cites behave
differently.  The V1 `extractFromText` fallback filters the collected
amounts to plausible ones, sorts ascending, and only when at least two
survive sets min to the smallest and max to the largest survivor, with
no separation requirement — a pair 5 apart is kept — while a single
surviving value sets neither min nor max.  The V2 `pickRangeFromText`
sorts all collected amounts and, when its pair loop succeeds, returns
the first adjacent pair of plausible values at least 10 apart as
(min, max); when the loop finds no such pair the first two sorted
amounts are returned in order, so an empty min forces an empty max (a
single collected value becomes min, never max).  Only the P0 revision
turns a single value into max with min unknown. -/
theorem C4_amended :
    (∀ (t : String) (a b : ℚ),
      pickPair (sortAsc (collectEurosV2 t.data)) = some (a, b) →
      pickRangeFromText t = (some a, some b) ∧ plausibQ a = true ∧
        plausibQ b = true ∧ 10 ≤ qSub b a) ∧
    (∀ t : String, (pickRangeFromText t).1 = none →
      (pickRangeFromText t).2 = none) ∧
    pickRangeFromText0 "950 €" = (none, some 950) ∧
    (∀ (all : List (Option ℚ)) (a b : ℚ),
      fallbackV1 all = (some a, some b) →
      plausibQ a = true ∧ plausibQ b = true ∧ a ≤ b) ∧
    (∀ all : List (Option ℚ),
      (fallbackV1 all).1 = none ↔ (fallbackV1 all).2 = none) ∧
    fallbackV1 [some 200, some 205, some 900] = (some 200, some 900) ∧
    (fallbackV1 [some 200, some 205] = (some 200, some 205) ∧
      ¬(10 ≤ qSub 205 200)) ∧
    fallbackV1 [some 950] = (none, none) ∧
    extractFromText "950 €" = ⟨none, none, none, none⟩ ∧
    extractFromText "200 € y 900 €" = ⟨some 200, some 900, none, none⟩ := by
  refine ⟨?_, ?_, by decide, fallbackV1_bounds, fallbackV1_none_iff,
    by decide, ⟨by decide, by decide⟩, by decide, by decide, by decide⟩
  · intro t a b h
    have hb := pickPair_sound _ _ _ h
    exact ⟨pickRangeCore_pair _ _ _ h, hb.1, hb.2.1, hb.2.2⟩
  · intro t h
    exact pickRangeCore_min_none (collectEurosV2 t.data) h

/-- C4 amended, witness: the V2 pair-loop branch at a text with two
plausible, separated amounts, and the V1 fallback bound at a collected
pair. -/
theorem C4_amended_witness :
    (pickRangeFromText "200 € y 900 €" = (some 200, some 900) ∧
      plausibQ 200 = true ∧ plausibQ 900 = true ∧ 10 ≤ qSub 900 200) ∧
    (plausibQ 205 = true ∧ (205 : ℚ) ≤ 900) := by
  constructor
  · have h := C4_amended.1 "200 € y 900 €" 200 900 (by decide)
    exact ⟨h.1, h.2.1, h.2.2.1, h.2.2.2⟩
  · have h := C4_amended.2.2.2.1 [some 205, some 900] 205 900 (by decide)
    exact ⟨h.1, h.2.2⟩

/-- C5 counterexample: for the text `entre 900 € y 1.100 €` with no
reference phrase, the V2 extraction sets total to the rounded midpoint
1000, not to max = 1100 as claimed. -/
theorem C5_counterexample :
    (extractAll "entre 900 € y 1.100 €").total = some 1000 ∧
    (extractAll "entre 900 € y 1.100 €").max = some 1100 ∧
    (extractAll "entre 900 € y 1.100 €").precio_ref = none ∧
    some (1000 : ℚ) ≠ some (1100 : ℚ) := by
  refine ⟨by decide, by decide, by decide, by decide⟩

/-- C5 amended: the revisions disagree on the total.  In V2, scenario B
produces min = 900, max = 1100, no reference price, and total = 1000,
the half-up-rounded midpoint.  The P0 revision derives
total = referencePrice ?? max ?? min, which is authoritative for a
present reference price and yields 1100 for scenario B; neither
revision uses max when a midpoint or reference is available,
respectively. -/
theorem C5_amended :
    extractAll "entre 900 € y 1.100 €" =
      ⟨some 900, some 1100, none, some 1000, none⟩ ∧
    totalP0 ⟨some 900, some 1100, none⟩ = some 1100 ∧
    (∀ (v : ℚ) (mn mx : Option ℚ), totalP0 ⟨mn, mx, some v⟩ = some v) ∧
    (∀ (v : ℚ) (mn : Option ℚ), totalP0 ⟨mn, some v, none⟩ = some v) ∧
    (∀ v : ℚ, totalP0 ⟨some v, none, none⟩ = some v) := by
  refine ⟨by decide, rfl, fun v mn mx => rfl, fun v mn => rfl, fun v => rfl⟩

/-- C6 counterexample: the P0 extraction returns the per-area value
unchecked — `500 €/m²` yields psqm = 500, far outside the tighter
per-area bound (2–100) that V1 enforces. -/
theorem C6_counterexample :
    (extractRangeAndRef "500 €/m²").psqm = some 500 ∧
    plausibPsqm (some 500) = false := by
  exact ⟨by decide, by decide⟩

/-- C6 amended: in the V1 extraction every retained monetary value lies
within its configured bound — min, max and reference price within
100–20000, the per-area value within the separate tighter bound 2–100 —
and 3 and 25000 are implausible for rent while 950 is retained; the P0
revision, however, does not bound its per-area value. -/
theorem C6_amended :
    (∀ t : String, boundOkV1 (extractFromText t) = true) ∧
    plausib (some 3) = false ∧ plausib (some 25000) = false ∧
    plausib (some 950) = true ∧ plausibPsqm (some 50) = true := by
  refine ⟨?_, by decide, by decide, by decide, by decide⟩
  intro t
  unfold extractFromText
  exact finishV1_bounds _ _ _ _

/-- C7 (confirmed): `eurToNum` strips the thousands dots, converts the
first comma to a decimal point, and returns null on a non-finite parse;
`"1.234,56"` gives 1234.56 (= 123456/100) and `"950"` gives 950, while a
string that still holds a comma after the conversion is rejected. -/
theorem C7_eurToNum :
    eurToNum "1.234,56" = some (mkRat 123456 100) ∧
    eurToNum "950" = some 950 ∧
    eurToNum "12,3,4" = none ∧
    stripDots "1.234,56" = "1234,56" ∧
    String.mk (replaceFirstCommaL "1234,56".data) = "1234.56" := by
  refine ⟨by decide, by decide, by decide, by decide, by decide⟩

/-- C8 (confirmed): after `sanitizeRange`, whenever both min and max are
present, min ≤ max; and the inverted pair (1200, 900) is swapped to
(900, 1200). -/
theorem C8_sanitize_order :
    (∀ r : RangeRef,
      sortedOpt (sanitizeRange r).min (sanitizeRange r).max = true) ∧
    sanitizeRange ⟨some 1200, some 900, none⟩ =
      ⟨some 900, some 1200, none⟩ := by
  refine ⟨?_, by decide⟩
  intro r
  rcases r with ⟨mn, mx, pref⟩
  cases mn with
  | none =>
    cases mx with
    | none => rfl
    | some b =>
      show sortedOpt (dropImplaus none) (dropImplaus (some b)) = true
      cases h : dropImplaus (some b) <;> rfl
  | some a =>
    cases mx with
    | none =>
      show sortedOpt (dropImplaus (some a)) (dropImplaus none) = true
      cases h : dropImplaus (some a) <;> rfl
    | some b =>
      show sortedOpt
        (dropImplaus (if a > b then (some b, some a) else (some a, some b)).1)
        (dropImplaus (if a > b then (some b, some a) else (some a, some b)).2)
        = true
      by_cases hab : a > b
      · rw [if_pos hab]
        exact sortedOpt_dropImplaus (le_of_lt hab)
      · rw [if_neg hab]
        exact sortedOpt_dropImplaus (not_lt.mp hab)

/-- C9 (confirmed): a request whose identifier does not render to a
string matching `^[A-Z0-9]{20}$` — including an absent identifier — is
rejected with the 400 invalid-RC response before any browser resource
is allocated. -/
theorem C9_rc_validation (rc ascensor planta estado etiqueta : JVal)
    (o : WorkOutcome) (h : rcFormat rc.toJsString = false) :
    handleV1 rc ascensor planta estado etiqueta o =
      ⟨400, .badRC, false, false⟩ := by
  have hv : rcValid rc = false := by
    unfold rcValid
    rw [h, Bool.and_false]
  unfold handleV1
  rw [hv]
  rfl

/-- C9 witness: the absent identifier. -/
theorem C9_rc_validation_witness :
    rcFormat (JVal.toJsString .undef) = false ∧
    handleV1 .undef .undef .undef .undef .undef .deadline =
      ⟨400, .badRC, false, false⟩ :=
  ⟨by decide, C9_rc_validation _ _ _ _ _ _ (by decide)⟩

/-- C10 (confirmed): `isOnSerpavi` is substring containment of the
target domain in the hostname, not equality — any parseable address
whose hostname merely embeds `serpavi.mivau.gob.es` is accepted, as the
hostname of a different registrable domain demonstrates — and every
string without a parseable hostname yields false. -/
theorem C10_isOnSerpavi :
    (∀ (s h : String), urlHostname s = some h →
      strContains h "serpavi.mivau.gob.es" = true → isOnSerpavi s = true) ∧
    (∀ s : String, urlHostname s = none → isOnSerpavi s = false) ∧
    isOnSerpavi "https://serpavi.mivau.gob.es.attacker.example/path" = true ∧
    urlHostname "https://serpavi.mivau.gob.es.attacker.example/path" =
      some "serpavi.mivau.gob.es.attacker.example" ∧
    ("serpavi.mivau.gob.es.attacker.example" : String) ≠
      "serpavi.mivau.gob.es" ∧
    isOnSerpavi "not a url" = false := by
  refine ⟨?_, ?_, by decide, by decide, by decide, by decide⟩
  · intro s h h1 h2
    unfold isOnSerpavi
    rw [h1]
    exact h2
  · intro s h1
    unfold isOnSerpavi
    rw [h1]

/-- C10 witness: the genuine application root. -/
theorem C10_isOnSerpavi_witness :
    urlHostname "https://serpavi.mivau.gob.es/" = some "serpavi.mivau.gob.es" ∧
    isOnSerpavi "https://serpavi.mivau.gob.es/" = true :=
  ⟨by decide, C10_isOnSerpavi.1 _ "serpavi.mivau.gob.es" (by decide) (by decide)⟩

end Serpavi
